import Mathlib

/-!
Shallow embedding of the dispatch/submission core of the `amethyst_renderer`
crate (`src/renderer/src/lib.rs`): the pass registry keyed by a pair of
run-time type identities, the Frame/Layer job model, and `Renderer::submit`.

Modelling conventions:
* `std::any::TypeId` is modelled by a `Nat` tag; a trait object
  (`Box<PassDescription>`, `Box<Target>`) is a tag together with an opaque
  `Nat` payload, and `mopa`'s `downcast_ref::<A>` succeeds exactly when the
  object's tag equals the tag of `A`.
* GPU commands recorded into the `gfx::Encoder` are opaque markers (`Nat`);
  the encoder is the list of commands recorded so far, in order.
* A Rust `panic!` / `Option::unwrap` failure aborts the submission; `submit`
  therefore returns a `SubmitOutcome` that either succeeds or reports the
  panic together with the renderer state at the moment of the panic.
* The external `gfx::Device` is modelled as a recorder of the flush/cleanup
  events it receives, in order.
-/

namespace Amethyst

/-- A single GPU command recorded into the encoder (an opaque marker). -/
abbrev Command := Nat

/-- The command stream of `gfx::Encoder`: commands recorded so far, in order. -/
abbrev Encoder := List Command

/-- Run-time type identity, modelling `std::any::TypeId`. -/
abbrev TypeTag := Nat

/-- Modelled from the spec: an opaque, heap-referenced pass configuration
(`Box<PassDescription>`; the `pass` module is not under `src/`): a value
tagged at run time by its concrete kind, with an opaque payload. -/
structure PassDescription where
  tag : TypeTag
  data : Nat
deriving DecidableEq, Repr

/-- Modelled from the spec: an opaque render target (`Box<Target>`; the
`target` module is not under `src/`): a value tagged at run time by its
concrete kind, with an opaque payload. -/
structure TargetObj where
  tag : TypeTag
  data : Nat
deriving DecidableEq, Repr

/-- Placeholder vertex layout (`VertexPosNormal`). -/
structure VertexPosNormal where
  pos : Fin 3 → Float
  normal : Fin 3 → Float

/-- A drawable fragment (`Fragment<R>`); GPU handles are opaque ids. -/
structure Fragment where
  transform : Fin 4 → Fin 4 → Float
  buffer : Nat
  slice : Nat
  ka : Fin 4 → Float
  kd : Fin 4 → Float

/-- A placeholder light (`Light`). -/
structure Light where
  center : Fin 3 → Float
  radius : Float
  color : Fin 4 → Float
  propagation_constant : Float
  propagation_linear : Float
  propagation_r_square : Float

/-- A scene: drawable fragments and lights (`Scene<R>`). -/
structure Scene where
  fragments : List Fragment
  lights : List Light

/-- `Scene::new`: the empty scene. -/
def Scene.new : Scene := ⟨[], []⟩

/-- A camera: projection and view matrices (`Camera`). -/
structure Camera where
  projection : Fin 4 → Fin 4 → Float
  view : Fin 4 → Fin 4 → Float

/-- A layer: a target name and an ordered list of opaque pass
configurations (`Layer`). -/
structure Layer where
  target : String
  passes : List PassDescription

/-- `Layer::new`. -/
def Layer.new (target : String) (passes : List PassDescription) : Layer :=
  ⟨target, passes⟩

/-- The render job submission (`Frame<R>`): ordered layers plus name-keyed
collections of targets, scenes and cameras (`HashMap`s modelled as
association lists looked up by first match). -/
structure Frame where
  layers : List Layer
  targets : List (String × TargetObj)
  scenes : List (String × Scene)
  cameras : List (String × Camera)

/-- `Frame::new`: the empty frame. -/
def Frame.new : Frame := ⟨[], [], [], []⟩

/-- The panics that can abort a submission. -/
inductive RenderError where
  /-- `frame.targets.get(&layer.target).unwrap()` on `None` (line 82). -/
  | targetUnwrapNone
  /-- `downcast_ref::<A>().unwrap()` / `downcast_ref::<T>().unwrap()` on
  `None` inside a registered thunk (lines 71-72). -/
  | downcastUnwrapNone
  /-- `panic!("No pass implementation found for target={}, pass={:?}", ..)`
  (line 88). -/
  | noPassFound (target : String) (desc : PassDescription)
deriving DecidableEq, Repr

/-- Modelled from the spec: the `Debug` rendering (`{:?}`) of a pass
configuration — "a description of the unmatched config" (the concrete
config kinds live in the `pass` module, not under `src/`). -/
def descString (d : PassDescription) : String :=
  "PassDescription(tag=" ++ toString d.tag ++ ", data=" ++ toString d.data ++ ")"

/-- The panic message carried by each abort, as the source formats it. -/
def RenderError.message : RenderError → String
  | .targetUnwrapNone => "called Option::unwrap() on a None value"
  | .downcastUnwrapNone => "called Option::unwrap() on a None value"
  | .noPassFound target desc =>
      "No pass implementation found for target=" ++ target ++ ", pass=" ++ descString desc

/-- The type-erased invocation thunk stored in the registry
(`Box<Fn(&Box<PassDescription>, &Target, &Frame<R>, &mut Encoder)>`);
a thunk may panic (downcast failure), reported as an error. -/
abbrev PassThunk := PassDescription → TargetObj → Frame → Encoder → Except RenderError Encoder

/-- The pass registry: `HashMap<(TypeId, TypeId), thunk>` modelled as an
association list with at most one entry per key. -/
abbrev Registry := List ((TypeTag × TypeTag) × PassThunk)

/-- `HashMap::insert`: replace any existing entry for the key. -/
def registryInsert (m : Registry) (k : TypeTag × TypeTag) (v : PassThunk) : Registry :=
  (k, v) :: m.filter (fun e => e.1 ≠ k)

/-- `HashMap::get` on the registry. -/
def lookupPass (m : Registry) (k : TypeTag × TypeTag) : Option PassThunk :=
  (m.find? (fun e => e.1 = k)).map (fun e => e.2)

/-- Modelled from the spec: a statically-typed pass bound to one
(Config-kind, Target-kind) pair (the `Pass` trait lives in the `pass`
module, not under `src/`). `argTag`/`targetTag` are the run-time tags of
its `Arg` and `Target` kinds; `apply` is its strongly-typed procedure on
the downcast payloads, side-effecting only the encoder. -/
structure Pass where
  argTag : TypeTag
  targetTag : TypeTag
  apply : Nat → Nat → Frame → Encoder → Encoder

/-- `a.downcast_ref::<A>()`: succeeds iff the object's run-time tag is the
tag of `A`. -/
def downcastConfig (tag : TypeTag) (c : PassDescription) : Option Nat :=
  if c.tag = tag then some c.data else none

/-- `t.downcast_ref::<T>()`: succeeds iff the object's run-time tag is the
tag of `T`. -/
def downcastTarget (tag : TypeTag) (t : TargetObj) : Option Nat :=
  if t.tag = tag then some t.data else none

/-- The renderer (`Renderer<R, C>`): the accumulated command stream and the
pass registry. -/
structure Renderer where
  command_buffer : Encoder
  passes : Registry

/-- `Renderer::new`. -/
def Renderer.new (combuf : Encoder) : Renderer := ⟨combuf, []⟩

/-- The thunk `Renderer::add_pass` boxes (lines 70-74): downcast the opaque
config and target, panicking (`unwrap`) on failure, then invoke the pass. -/
def mkThunk (p : Pass) : PassThunk := fun a t frame encoder =>
  match downcastConfig p.argTag a with
  | none => .error .downcastUnwrapNone
  | some av =>
    match downcastTarget p.targetTag t with
    | none => .error .downcastUnwrapNone
    | some tv => .ok (p.apply av tv frame encoder)

/-- `Renderer::add_pass`: insert the type-erased thunk under the identity
pair `(TypeId::of::<A>(), TypeId::of::<T>())`. -/
def Renderer.add_pass (r : Renderer) (p : Pass) : Renderer :=
  { r with passes := registryInsert r.passes (p.argTag, p.targetTag) (mkThunk p) }

/-- `frame.targets.get(&layer.target)`. -/
def lookupTarget (targets : List (String × TargetObj)) (name : String) : Option TargetObj :=
  (targets.find? (fun e => e.1 = name)).map (fun e => e.2)

/-- The inner loop of `submit` over one layer's pass list: look each config
up by the identity pair `(desc tag, fb tag)` and invoke the thunk, or panic
with `noPassFound`. On an abort the error carries the encoder at the moment
of the panic. -/
def runPasses (reg : Registry) (frame : Frame) (targetName : String) (fb : TargetObj) :
    List PassDescription → Encoder → Except (RenderError × Encoder) Encoder
  | [], enc => .ok enc
  | desc :: rest, enc =>
    match lookupPass reg (desc.tag, fb.tag) with
    | some thunk =>
      match thunk desc fb frame enc with
      | .ok enc2 => runPasses reg frame targetName fb rest enc2
      | .error e => .error (e, enc)
    | none => .error (.noPassFound targetName desc, enc)

/-- The outer loop of `submit` over the frame's layers: resolve each layer's
target name (panicking with the bare `unwrap` on a missing name), then run
its passes in order. -/
def runLayers (reg : Registry) (frame : Frame) :
    List Layer → Encoder → Except (RenderError × Encoder) Encoder
  | [], enc => .ok enc
  | layer :: rest, enc =>
    match lookupTarget frame.targets layer.target with
    | none => .error (.targetUnwrapNone, enc)
    | some fb =>
      match runPasses reg frame layer.target fb layer.passes enc with
      | .ok enc2 => runLayers reg frame rest enc2
      | .error e => .error e

/-- An observable event received by the external device. -/
inductive DevEvent where
  /-- The device received a flushed batch of commands. -/
  | flush (cmds : List Command)
  /-- The device was told to perform post-submission cleanup. -/
  | cleanup
deriving DecidableEq, Repr

/-- Modelled from the spec: the external `gfx::Device` contract, recorded as
the ordered list of flush/cleanup events it receives. -/
structure Device where
  events : List DevEvent
deriving DecidableEq, Repr

/-- `self.command_buffer.flush(device)`: submit the accumulated commands to
the device (the encoder is reset by the flush). -/
def Encoder.flush (enc : Encoder) (d : Device) : Device :=
  ⟨d.events ++ [.flush enc]⟩

/-- `device.cleanup()`. -/
def Device.cleanup (d : Device) : Device :=
  ⟨d.events ++ [.cleanup]⟩

/-- The observable outcome of one `submit` call: either normal return, or a
panic, carrying the renderer state at the moment of the panic and the
device (which received no flush/cleanup in the panicking submission). -/
inductive SubmitOutcome where
  | ok (r : Renderer) (d : Device)
  | panicked (e : RenderError) (r : Renderer) (d : Device)

/-- `Renderer::submit` (lines 78-94): walk the layers in order, then flush
the command stream to the device and signal cleanup. -/
def Renderer.submit (r : Renderer) (frame : Frame) (device : Device) : SubmitOutcome :=
  match runLayers r.passes frame frame.layers r.command_buffer with
  | .error (e, enc) => .panicked e { r with command_buffer := enc } device
  | .ok enc => .ok { r with command_buffer := [] } (Device.cleanup (Encoder.flush enc device))

/-- The renderer state an outcome leaves behind. -/
def SubmitOutcome.renderer : SubmitOutcome → Renderer
  | .ok r _ => r
  | .panicked _ r _ => r

/-! ### Helper lemmas about the submission loops -/

theorem runPasses_append (reg : Registry) (frame : Frame) (n : String) (fb : TargetObj)
    (pre rest : List PassDescription) (enc enc1 : Encoder)
    (h : runPasses reg frame n fb pre enc = .ok enc1) :
    runPasses reg frame n fb (pre ++ rest) enc = runPasses reg frame n fb rest enc1 := by
  induction pre generalizing enc with
  | nil =>
    simp only [runPasses, Except.ok.injEq] at h
    subst h
    rfl
  | cons d pre ih =>
    simp only [runPasses, List.cons_append] at h ⊢
    cases hl : lookupPass reg (d.tag, fb.tag) with
    | none => simp only [hl] at h; exact absurd h (by simp)
    | some th =>
      simp only [hl] at h ⊢
      cases ht : th d fb frame enc with
      | error e => simp only [ht] at h; exact absurd h (by simp)
      | ok enc2 => simp only [ht] at h ⊢; exact ih enc2 h

theorem runLayers_append (reg : Registry) (frame : Frame)
    (pre rest : List Layer) (enc enc1 : Encoder)
    (h : runLayers reg frame pre enc = .ok enc1) :
    runLayers reg frame (pre ++ rest) enc = runLayers reg frame rest enc1 := by
  induction pre generalizing enc with
  | nil =>
    simp only [runLayers, Except.ok.injEq] at h
    subst h
    rfl
  | cons layer pre ih =>
    simp only [runLayers, List.cons_append] at h ⊢
    cases hl : lookupTarget frame.targets layer.target with
    | none => simp only [hl] at h; exact absurd h (by simp)
    | some fb =>
      simp only [hl] at h ⊢
      cases hr : runPasses reg frame layer.target fb layer.passes enc with
      | error e => simp only [hr] at h; exact absurd h (by simp)
      | ok enc2 => simp only [hr] at h ⊢; exact ih enc2 h

theorem runPasses_markers (reg : Registry) (frame : Frame) (n : String) (fb : TargetObj)
    (emit : PassDescription → List Command) (descs : List PassDescription)
    (h : ∀ desc ∈ descs, ∃ th, lookupPass reg (desc.tag, fb.tag) = some th ∧
          ∀ enc, th desc fb frame enc = .ok (enc ++ emit desc)) (enc : Encoder) :
    runPasses reg frame n fb descs enc = .ok (enc ++ (descs.map emit).flatten) := by
  induction descs generalizing enc with
  | nil => simp [runPasses]
  | cons d rest ih =>
    obtain ⟨th, hl, happ⟩ := h d (by simp)
    simp only [runPasses, hl, happ, ih (fun x hx => h x (by simp [hx]))]
    simp

theorem runLayers_markers (reg : Registry) (frame : Frame)
    (emit : Layer → PassDescription → List Command) (ls : List Layer)
    (h : ∀ layer ∈ ls, ∃ fb, lookupTarget frame.targets layer.target = some fb ∧
          ∀ desc ∈ layer.passes, ∃ th, lookupPass reg (desc.tag, fb.tag) = some th ∧
            ∀ enc, th desc fb frame enc = .ok (enc ++ emit layer desc)) (enc : Encoder) :
    runLayers reg frame ls enc =
      .ok (enc ++ (ls.map (fun layer => (layer.passes.map (emit layer)).flatten)).flatten) := by
  induction ls generalizing enc with
  | nil => simp [runLayers]
  | cons layer rest ih =>
    obtain ⟨fb, hfb, hps⟩ := h layer (by simp)
    simp only [runLayers, hfb,
      runPasses_markers reg frame layer.target fb (emit layer) layer.passes hps,
      ih (fun x hx => h x (by simp [hx]))]
    simp

/-- The shape of a submission that panics on a missing target name: all
layers before the offending one ran, none of the offending layer's passes
ran, and the device received neither flush nor cleanup. -/
theorem submit_panics_missing_target (r : Renderer) (f : Frame) (d : Device)
    (pre : List Layer) (layer : Layer) (rest : List Layer) (enc : Encoder)
    (hl : f.layers = pre ++ layer :: rest)
    (hpre : runLayers r.passes f pre r.command_buffer = .ok enc)
    (ht : lookupTarget f.targets layer.target = none) :
    r.submit f d = .panicked .targetUnwrapNone ⟨enc, r.passes⟩ d := by
  unfold Renderer.submit
  rw [hl, runLayers_append r.passes f pre (layer :: rest) r.command_buffer enc hpre]
  simp [runLayers, ht]

/-- The shape of a submission that panics on an unmatched identity pair:
everything strictly before the offending configuration ran, the offending
pair was never invoked, and the device received neither flush nor cleanup. -/
theorem submit_panics_no_pass (r : Renderer) (f : Frame) (d : Device)
    (pre : List Layer) (layer : Layer) (rest : List Layer) (fb : TargetObj)
    (pds : List PassDescription) (desc : PassDescription) (pdr : List PassDescription)
    (enc enc2 : Encoder)
    (hl : f.layers = pre ++ layer :: rest)
    (hpre : runLayers r.passes f pre r.command_buffer = .ok enc)
    (ht : lookupTarget f.targets layer.target = some fb)
    (hp : layer.passes = pds ++ desc :: pdr)
    (hrun : runPasses r.passes f layer.target fb pds enc = .ok enc2)
    (hmiss : lookupPass r.passes (desc.tag, fb.tag) = none) :
    r.submit f d = .panicked (.noPassFound layer.target desc) ⟨enc2, r.passes⟩ d := by
  unfold Renderer.submit
  rw [hl, runLayers_append r.passes f pre (layer :: rest) r.command_buffer enc hpre]
  simp only [runLayers, ht]
  rw [hp, runPasses_append r.passes f layer.target fb pds (desc :: pdr) enc enc2 hrun]
  simp [runPasses, hmiss]

/-! ### Concrete fixtures used by the closed witness theorems -/

/-- A pass for config kind tag 0 and target kind tag 10 that appends the
config payload to the command stream. -/
def markerPass : Pass := ⟨0, 10, fun a _ _ enc => enc ++ [a]⟩

/-- A renderer with the marker pass registered. -/
def markerRenderer : Renderer := (Renderer.new []).add_pass markerPass

/-- A concrete target object of kind tag 10. -/
def mainTarget : TargetObj := ⟨10, 0⟩

/-- A two-layer frame whose passes append the markers 1, 2 and 3. -/
def markerFrame : Frame :=
  { layers := [Layer.new "main" [⟨0, 1⟩, ⟨0, 2⟩], Layer.new "aux" [⟨0, 3⟩]],
    targets := [("main", mainTarget), ("aux", mainTarget)], scenes := [], cameras := [] }

/-- A frame whose only layer names a target missing from its collection. -/
def missingTargetFrame : Frame :=
  { layers := [Layer.new "main" []], targets := [], scenes := [], cameras := [] }

/-- A frame with a resolvable target but a pass configuration for which no
handler is registered. -/
def unmatchedPassFrame : Frame :=
  { layers := [Layer.new "main" [⟨0, 1⟩]], targets := [("main", mainTarget)],
    scenes := [], cameras := [] }

/-- A device that has received no events yet. -/
def freshDevice : Device := ⟨[]⟩

/-! ### The claims -/

/-- C1: `submit` invokes the matched pass handlers strictly in order —
layers in the frame's layer-sequence order and, within each layer,
pass-configurations in their list order — so when every matched handler
appends its own markers to the command stream, the flushed stream is the
initial stream followed by exactly the concatenation of those markers in
(layer order, then within-layer pass order). -/
theorem submit_marker_ordering (r : Renderer) (frame : Frame) (d : Device)
    (emit : Layer → PassDescription → List Command)
    (h : ∀ layer ∈ frame.layers, ∃ fb, lookupTarget frame.targets layer.target = some fb ∧
          ∀ desc ∈ layer.passes, ∃ th, lookupPass r.passes (desc.tag, fb.tag) = some th ∧
            ∀ enc, th desc fb frame enc = .ok (enc ++ emit layer desc)) :
    r.submit frame d = .ok ⟨[], r.passes⟩
      ⟨d.events ++ [.flush (r.command_buffer ++
        (frame.layers.map (fun layer => (layer.passes.map (emit layer)).flatten)).flatten),
        .cleanup]⟩ := by
  unfold Renderer.submit
  rw [runLayers_markers r.passes frame emit frame.layers h r.command_buffer]
  simp [Encoder.flush, Device.cleanup]

/-- Witness for C1 at a concrete two-layer frame: the markers land in the
stream as 1, 2 (layer "main", passes in order) then 3 (layer "aux"). -/
theorem submit_marker_ordering_witness :
    markerRenderer.submit markerFrame freshDevice =
      .ok ⟨[], markerRenderer.passes⟩ ⟨[.flush [1, 2, 3], .cleanup]⟩ := by
  have h : ∀ layer ∈ markerFrame.layers,
      ∃ fb, lookupTarget markerFrame.targets layer.target = some fb ∧
        ∀ desc ∈ layer.passes,
          ∃ th, lookupPass markerRenderer.passes (desc.tag, fb.tag) = some th ∧
            ∀ enc, th desc fb markerFrame enc = .ok (enc ++ [desc.data]) := by
    intro layer hl
    refine ⟨mainTarget, ?_, ?_⟩
    · fin_cases hl <;> rfl
    · intro desc hd
      refine ⟨mkThunk markerPass, ?_, ?_⟩
      · fin_cases hl <;> fin_cases hd <;> rfl
      · intro enc
        fin_cases hl <;> fin_cases hd <;> rfl
  exact submit_marker_ordering markerRenderer markerFrame freshDevice
    (fun _ desc => [desc.data]) h

/-- C2 counterexample: submitting a frame whose layer names the absent
target "main" aborts, but the resulting diagnostic is the generic
`Option::unwrap` panic message, which does not contain the name "main". -/
theorem submit_missing_target_message_lacks_name :
    (Renderer.new []).submit missingTargetFrame freshDevice =
      .panicked .targetUnwrapNone (Renderer.new []) freshDevice ∧
    ¬ ("main".data <:+: (RenderError.message .targetUnwrapNone).data) := by
  exact ⟨rfl, by decide⟩

/-- C2 (amended): for every frame containing a layer whose target name is
absent from the frame's target collection, once submission reaches that
layer it aborts fatally, but the diagnostic is the generic `Option::unwrap`
panic message, which does not identify the missing target name. -/
theorem submit_missing_target_aborts_generic (r : Renderer) (f : Frame) (d : Device)
    (pre : List Layer) (layer : Layer) (rest : List Layer) (enc : Encoder)
    (hl : f.layers = pre ++ layer :: rest)
    (hpre : runLayers r.passes f pre r.command_buffer = .ok enc)
    (ht : lookupTarget f.targets layer.target = none) :
    r.submit f d = .panicked .targetUnwrapNone ⟨enc, r.passes⟩ d ∧
    RenderError.message .targetUnwrapNone = "called Option::unwrap() on a None value" :=
  ⟨submit_panics_missing_target r f d pre layer rest enc hl hpre ht, rfl⟩

/-- Witness for the amended C2 at a concrete frame missing the target
"main". -/
theorem submit_missing_target_aborts_generic_witness :
    (Renderer.new []).submit missingTargetFrame freshDevice =
      .panicked .targetUnwrapNone ⟨[], []⟩ freshDevice ∧
    RenderError.message .targetUnwrapNone = "called Option::unwrap() on a None value" :=
  submit_missing_target_aborts_generic (Renderer.new []) missingTargetFrame freshDevice
    [] (Layer.new "main" []) [] [] rfl rfl rfl

/-- C3: when submission meets a (config-kind, target-kind) identity pair
with no registered handler, it aborts fatally with the `noPassFound` panic,
whose message contains both the layer's target name and the description of
the unmatched configuration; the outcome is a panic, not a skip or a
partial result. -/
theorem submit_unmatched_pass_aborts_with_diagnostic (r : Renderer) (f : Frame) (d : Device)
    (pre : List Layer) (layer : Layer) (rest : List Layer) (fb : TargetObj)
    (pds : List PassDescription) (desc : PassDescription) (pdr : List PassDescription)
    (enc enc2 : Encoder)
    (hl : f.layers = pre ++ layer :: rest)
    (hpre : runLayers r.passes f pre r.command_buffer = .ok enc)
    (ht : lookupTarget f.targets layer.target = some fb)
    (hp : layer.passes = pds ++ desc :: pdr)
    (hrun : runPasses r.passes f layer.target fb pds enc = .ok enc2)
    (hmiss : lookupPass r.passes (desc.tag, fb.tag) = none) :
    r.submit f d = .panicked (.noPassFound layer.target desc) ⟨enc2, r.passes⟩ d ∧
    layer.target.data <:+: (RenderError.message (.noPassFound layer.target desc)).data ∧
    (descString desc).data <:+: (RenderError.message (.noPassFound layer.target desc)).data := by
  refine ⟨submit_panics_no_pass r f d pre layer rest fb pds desc pdr enc enc2
    hl hpre ht hp hrun hmiss, ?_, ?_⟩
  · have key : layer.target.data <:+:
        ("No pass implementation found for target=".data ++ layer.target.data ++
          (", pass=" ++ descString desc).data) := List.infix_append _ _ _
    simpa [RenderError.message, String.data_append, List.append_assoc] using key
  · have key : (descString desc).data <:+:
        (("No pass implementation found for target=" ++ layer.target ++ ", pass=").data ++
          (descString desc).data ++ []) := List.infix_append _ _ _
    simpa [RenderError.message, String.data_append, List.append_assoc] using key

/-- Witness for C3: an empty registry meets the pair (0, 10) and panics
with a message containing the target name and the config description. -/
theorem submit_unmatched_pass_aborts_with_diagnostic_witness :
    ((Renderer.new []).submit unmatchedPassFrame freshDevice =
      .panicked (.noPassFound "main" ⟨0, 1⟩) ⟨[], []⟩ freshDevice) ∧
    "main".data <:+: (RenderError.message (.noPassFound "main" ⟨0, 1⟩)).data ∧
    (descString ⟨0, 1⟩).data <:+: (RenderError.message (.noPassFound "main" ⟨0, 1⟩)).data :=
  submit_unmatched_pass_aborts_with_diagnostic (Renderer.new []) unmatchedPassFrame
    freshDevice [] (Layer.new "main" [⟨0, 1⟩]) [] mainTarget [] ⟨0, 1⟩ [] [] []
    rfl rfl rfl rfl rfl rfl

/-- C4: after `add_pass p`, the registry's entry for p's identity pair,
invoked with an opaque config of p's config kind and an opaque target of
p's target kind, produces exactly the effect of calling `p.apply` directly
on the concrete payloads. -/
theorem add_pass_lookup_refines_apply (r : Renderer) (p : Pass)
    (c : PassDescription) (t : TargetObj) (frame : Frame) (enc : Encoder)
    (hc : c.tag = p.argTag) (ht : t.tag = p.targetTag) :
    ∃ th, lookupPass (r.add_pass p).passes (p.argTag, p.targetTag) = some th ∧
      th c t frame enc = .ok (p.apply c.data t.data frame enc) := by
  refine ⟨mkThunk p, ?_, ?_⟩
  · simp [Renderer.add_pass, registryInsert, lookupPass]
  · simp [mkThunk, downcastConfig, downcastTarget, hc, ht]

/-- Witness for C4 at a concrete pass and operands. -/
theorem add_pass_lookup_refines_apply_witness :
    ∃ th, lookupPass markerRenderer.passes (0, 10) = some th ∧
      th ⟨0, 5⟩ mainTarget Frame.new [7] = .ok (markerPass.apply 5 0 Frame.new [7]) :=
  add_pass_lookup_refines_apply (Renderer.new []) markerPass ⟨0, 5⟩ mainTarget
    Frame.new [7] rfl rfl

/-- C5: registering two passes bound to the same identity pair leaves the
registry identical to one where only the later pass was registered; the
lookup for the pair returns the later pass's thunk (last-write-wins, no
conflict detection). -/
theorem add_pass_last_write_wins (r : Renderer) (p1 p2 : Pass)
    (h1 : p1.argTag = p2.argTag) (h2 : p1.targetTag = p2.targetTag) :
    ((r.add_pass p1).add_pass p2).passes = (r.add_pass p2).passes ∧
    lookupPass ((r.add_pass p1).add_pass p2).passes (p2.argTag, p2.targetTag) =
      some (mkThunk p2) := by
  have key : (p1.argTag, p1.targetTag) = (p2.argTag, p2.targetTag) := by rw [h1, h2]
  constructor
  · simp [Renderer.add_pass, registryInsert, key, List.filter_filter]
  · simp [Renderer.add_pass, registryInsert, lookupPass]

/-- Witness for C5 with two distinct passes on the pair (0, 10). -/
theorem add_pass_last_write_wins_witness :
    (((Renderer.new []).add_pass ⟨0, 10, fun _ _ _ enc => enc ++ [8]⟩).add_pass
        markerPass).passes = ((Renderer.new []).add_pass markerPass).passes ∧
    lookupPass (((Renderer.new []).add_pass ⟨0, 10, fun _ _ _ enc => enc ++ [8]⟩).add_pass
        markerPass).passes (0, 10) = some (mkThunk markerPass) :=
  add_pass_last_write_wins (Renderer.new []) ⟨0, 10, fun _ _ _ enc => enc ++ [8]⟩
    markerPass rfl rfl

/-- C6: a submission that completes without error flushes the accumulated
command stream to the device and then signals cleanup — the device receives
exactly one flush event followed by exactly one cleanup event, after all
layers were processed. -/
theorem submit_ok_flush_then_cleanup_once (r : Renderer) (f : Frame) (d : Device)
    (r2 : Renderer) (d2 : Device) (h : r.submit f d = .ok r2 d2) :
    ∃ enc, d2.events = d.events ++ [.flush enc, .cleanup] := by
  unfold Renderer.submit at h
  cases hrl : runLayers r.passes f f.layers r.command_buffer with
  | error e =>
    obtain ⟨e, enc⟩ := e
    rw [hrl] at h
    exact absurd h (by simp)
  | ok enc =>
    rw [hrl] at h
    refine ⟨enc, ?_⟩
    injection h with h1 h2
    rw [← h2]
    simp [Device.cleanup, Encoder.flush]

/-- Witness for C6: an empty frame's submission produces one flush then one
cleanup. -/
theorem submit_ok_flush_then_cleanup_once_witness :
    ∃ enc, (Device.mk [.flush [], .cleanup]).events =
      freshDevice.events ++ [.flush enc, .cleanup] :=
  submit_ok_flush_then_cleanup_once (Renderer.new []) Frame.new freshDevice
    ⟨[], []⟩ ⟨[.flush [], .cleanup]⟩ rfl

/-- C7: an aborting submission stops before the offending step and before
any device flush/cleanup. For a missing target name the panic happens with
the command stream exactly as the strictly prior layers left it (no pass of
the offending layer ran); for an unmatched identity pair the panic happens
with the stream exactly as the passes strictly before the unmatched one
left it (its handler was never invoked); in both cases the device receives
no events. -/
theorem submit_abort_no_invocation_no_flush :
    (∀ (r : Renderer) (f : Frame) (d : Device) (pre : List Layer) (layer : Layer)
        (rest : List Layer) (enc : Encoder),
        f.layers = pre ++ layer :: rest →
        runLayers r.passes f pre r.command_buffer = .ok enc →
        lookupTarget f.targets layer.target = none →
        r.submit f d = .panicked .targetUnwrapNone ⟨enc, r.passes⟩ d) ∧
    (∀ (r : Renderer) (f : Frame) (d : Device) (pre : List Layer) (layer : Layer)
        (rest : List Layer) (fb : TargetObj) (pds : List PassDescription)
        (desc : PassDescription) (pdr : List PassDescription) (enc enc2 : Encoder),
        f.layers = pre ++ layer :: rest →
        runLayers r.passes f pre r.command_buffer = .ok enc →
        lookupTarget f.targets layer.target = some fb →
        layer.passes = pds ++ desc :: pdr →
        runPasses r.passes f layer.target fb pds enc = .ok enc2 →
        lookupPass r.passes (desc.tag, fb.tag) = none →
        r.submit f d = .panicked (.noPassFound layer.target desc) ⟨enc2, r.passes⟩ d) :=
  ⟨fun r f d pre layer rest enc hl hpre ht =>
      submit_panics_missing_target r f d pre layer rest enc hl hpre ht,
    fun r f d pre layer rest fb pds desc pdr enc enc2 hl hpre ht hp hrun hmiss =>
      submit_panics_no_pass r f d pre layer rest fb pds desc pdr enc enc2
        hl hpre ht hp hrun hmiss⟩

/-- Witness for C7: both abort shapes at concrete frames — in each case the
device stays empty and the panic-time command stream is empty. -/
theorem submit_abort_no_invocation_no_flush_witness :
    ((Renderer.new []).submit missingTargetFrame freshDevice =
      .panicked .targetUnwrapNone ⟨[], []⟩ freshDevice) ∧
    ((Renderer.new []).submit unmatchedPassFrame freshDevice =
      .panicked (.noPassFound "main" ⟨0, 1⟩) ⟨[], []⟩ freshDevice) :=
  ⟨submit_abort_no_invocation_no_flush.1 (Renderer.new []) missingTargetFrame
      freshDevice [] (Layer.new "main" []) [] [] rfl rfl rfl,
    submit_abort_no_invocation_no_flush.2 (Renderer.new []) unmatchedPassFrame
      freshDevice [] (Layer.new "main" [⟨0, 1⟩]) [] mainTarget [] ⟨0, 1⟩ [] [] []
      rfl rfl rfl rfl rfl rfl⟩

/-- C8: inside a thunk created by `add_pass`, when the invocation key
(the config's tag, the target's tag) matches the registration key, both
downcasts succeed: the thunk returns the pass's direct result and the
downcast-failure (panic) branch is unreachable. -/
theorem registered_thunk_downcasts_succeed (p : Pass) (c : PassDescription)
    (t : TargetObj) (frame : Frame) (enc : Encoder)
    (h : (c.tag, t.tag) = (p.argTag, p.targetTag)) :
    mkThunk p c t frame enc = .ok (p.apply c.data t.data frame enc) ∧
    ∀ e, mkThunk p c t frame enc ≠ .error e := by
  rw [Prod.mk.injEq] at h
  have hres : mkThunk p c t frame enc = .ok (p.apply c.data t.data frame enc) := by
    simp [mkThunk, downcastConfig, downcastTarget, h.1, h.2]
  exact ⟨hres, fun e he => by rw [hres] at he; exact absurd he (by simp)⟩

/-- Witness for C8 at a concrete matching pair. -/
theorem registered_thunk_downcasts_succeed_witness :
    mkThunk markerPass ⟨0, 5⟩ mainTarget Frame.new [] =
      .ok (markerPass.apply 5 0 Frame.new []) ∧
    ∀ e, mkThunk markerPass ⟨0, 5⟩ mainTarget Frame.new [] ≠ .error e :=
  registered_thunk_downcasts_succeed markerPass ⟨0, 5⟩ mainTarget Frame.new [] rfl

/-- C9: `submit` leaves the registry untouched whether it returns normally
or panics — the renderer state it leaves behind carries the same
(config-kind, target-kind)-to-handler mapping, so the command stream is the
only renderer-side state `submit` mutates (the frame is taken by shared
reference and is never written). -/
theorem submit_preserves_registry (r : Renderer) (f : Frame) (d : Device) :
    ((r.submit f d).renderer).passes = r.passes := by
  unfold Renderer.submit
  cases hrl : runLayers r.passes f f.layers r.command_buffer with
  | error e =>
    obtain ⟨e, enc⟩ := e
    simp [hrl, SubmitOutcome.renderer]
  | ok enc =>
    simp [hrl, SubmitOutcome.renderer]

/-- C10: `Frame::new` has an empty layer sequence and empty target, scene
and camera collections, and submitting it succeeds without invoking any
handler: the command stream is flushed unchanged and the device receives
exactly one flush then one cleanup. -/
theorem frame_new_empty_submit_ok (r : Renderer) (d : Device) :
    Frame.new.layers = [] ∧ Frame.new.targets = [] ∧ Frame.new.scenes = [] ∧
    Frame.new.cameras = [] ∧
    r.submit Frame.new d =
      .ok ⟨[], r.passes⟩ ⟨d.events ++ [.flush r.command_buffer, .cleanup]⟩ := by
  refine ⟨rfl, rfl, rfl, rfl, ?_⟩
  simp [Renderer.submit, runLayers, Frame.new, Encoder.flush, Device.cleanup]

end Amethyst
